import Mathlib

/-!
Shallow embedding of the LiveGrade Pro companion module (`src/main.js`).

The module is a single stateful class `LiveGradeInstance` holding a WebSocket
handle, a reconnect timer handle, the last computed auth code, and cached
slot/look lists.  We embed:

* JSON values (`JVal`) as delivered by `JSON.parse` — JSON numbers are
  modelled as integers, which covers every value the protocol exchanges;
* the MD5-based auth-code computation `_computeAuth`;
* the instance state (`MState`) and every method as an explicit state
  transformer returning the new state plus the list of externally visible
  effects (messages sent, sockets opened/closed, HTTP requests issued,
  timers armed).  Asynchronous call-backs (`open`/`message`/`error`/`close`
  events, timer firings) are separate transformers; the event loop is
  represented by composing them, and reachability (`Reaches`) closes the
  set of states under all events.  Network/parse outcomes of the two
  catalogue fetches are passed in as oracle arguments (`Option JVal`,
  `none` = the fetch or its body parse failed).
* A raised JavaScript exception (property access on `null`/`undefined`,
  method call on `null`) is modelled as `Except.error`; the post-throw
  state is not tracked, since the exception escapes the handler.
-/

namespace LiveGrade

/-- JSON values as produced by `JSON.parse`.  Numeric literals of the
protocol are integers, so numbers are modelled as `Int`. -/
inductive JVal where
  | jnull
  | jbool (b : Bool)
  | jnum (n : Int)
  | jstr (s : String)
  | jarr (elems : List JVal)
  | jobj (fields : List (String × JVal))

/-- Property lookup in an object literal; on duplicate keys `JSON.parse`
keeps the last occurrence, hence the right-biased search. -/
def lookupField : List (String × JVal) → String → Option JVal
  | [], _ => none
  | (k, v) :: rest, key =>
    match lookupField rest key with
    | some w => some w
    | none => if k = key then some v else none

/-- Model of `v.key` for a non-null JavaScript value: objects look the key up,
every other value yields `undefined` (`none`).  Access on `null` throws
and is handled separately at each use site. -/
def getField : JVal → String → Option JVal
  | .jobj fields, key => lookupField fields key
  | _, _ => none

/-- JavaScript truthiness of a parsed JSON value. -/
def truthyV : JVal → Bool
  | .jnull => false
  | .jbool b => b
  | .jnum n => n != 0
  | .jstr s => s != ""
  | .jarr _ => true
  | .jobj _ => true

/-- JavaScript truthiness, with `none` standing for `undefined`. -/
def truthyOpt : Option JVal → Bool
  | none => false
  | some v => truthyV v

/-- JavaScript string coercion (as in `challenge + salt`), with `none`
standing for `undefined`.  The protocol only ever supplies a string
challenge; array contents are coerced one level deep, matching
`Array.prototype.toString` for the flat arrays that can occur here. -/
def jsToString : Option JVal → String
  | none => "undefined"
  | some .jnull => "null"
  | some (.jbool true) => "true"
  | some (.jbool false) => "false"
  | some (.jnum n) => toString n
  | some (.jstr s) => s
  | some (.jobj _) => "[object Object]"
  | some (.jarr elems) =>
    String.intercalate ","
      (elems.map fun v =>
        match v with
        | .jnull => ""
        | .jbool true => "true"
        | .jbool false => "false"
        | .jnum n => toString n
        | .jstr s => s
        | .jobj _ => "[object Object]"
        | .jarr _ => "")

/-- Model of `String.prototype.trim`: strip leading and trailing whitespace.
(Defined over the character list so that it evaluates inside the kernel.) -/
def jsTrim (s : String) : String :=
  ⟨((s.data.dropWhile Char.isWhitespace).reverse.dropWhile Char.isWhitespace).reverse⟩

/-! ### MD5 (`createHash('md5')`)

Standard MD5 over a byte list, all words reduced mod `2^32`. -/

/-- The word modulus `2^32`. -/
def w32 : Nat := 4294967296

/-- Left-rotation of a 32-bit word (input assumed `< 2^32`). -/
def rotl32 (x c : Nat) : Nat := ((x <<< c) ||| (x >>> (32 - c))) % w32

/-- Round-constant table `K[i] = floor(2^32 * |sin(i+1)|)`. -/
def md5K : List Nat :=
  [3614090360, 3905402710, 606105819, 3250441966, 4118548399, 1200080426, 2821735955, 4249261313,
   1770035416, 2336552879, 4294925233, 2304563134, 1804603682, 4254626195, 2792965006, 1236535329,
   4129170786, 3225465664, 643717713, 3921069994, 3593408605, 38016083, 3634488961, 3889429448,
   568446438, 3275163606, 4107603335, 1163531501, 2850285829, 4243563512, 1735328473, 2368359562,
   4294588738, 2272392833, 1839030562, 4259657740, 2763975236, 1272893353, 4139469664, 3200236656,
   681279174, 3936430074, 3572445317, 76029189, 3654602809, 3873151461, 530742520, 3299628645,
   4096336452, 1126891415, 2878612391, 4237533241, 1700485571, 2399980690, 4293915773, 2240044497,
   1873313359, 4264355552, 2734768916, 1309151649, 4149444226, 3174756917, 718787259, 3951481745]

/-- Per-round shift amounts. -/
def md5S : List Nat :=
  [7, 12, 17, 22, 7, 12, 17, 22, 7, 12, 17, 22, 7, 12, 17, 22,
   5, 9, 14, 20, 5, 9, 14, 20, 5, 9, 14, 20, 5, 9, 14, 20,
   4, 11, 16, 23, 4, 11, 16, 23, 4, 11, 16, 23, 4, 11, 16, 23,
   6, 10, 15, 21, 6, 10, 15, 21, 6, 10, 15, 21, 6, 10, 15, 21]

/-- Bitwise complement within 32 bits. -/
def not32 (x : Nat) : Nat := x ^^^ 4294967295

/-- One MD5 round: state is `(a, b, c, d)`, `m` the 16 message words. -/
def md5Round (m : List Nat) (st : Nat × Nat × Nat × Nat) (i : Nat) : Nat × Nat × Nat × Nat :=
  let (a, b, c, d) := st
  let (f, g) :=
    if i < 16 then ((b &&& c) ||| (not32 b &&& d), i)
    else if i < 32 then ((d &&& b) ||| (not32 d &&& c), (5 * i + 1) % 16)
    else if i < 48 then (b ^^^ c ^^^ d, (3 * i + 5) % 16)
    else (c ^^^ (b ||| not32 d), (7 * i) % 16)
  let f2 := (f + a + md5K.getD i 0 + m.getD g 0) % w32
  (d, (b + rotl32 f2 (md5S.getD i 0)) % w32, b, c)

/-- Process one 512-bit chunk (given as 16 words) into the running state. -/
def md5Chunk (h : Nat × Nat × Nat × Nat) (m : List Nat) : Nat × Nat × Nat × Nat :=
  let (a0, b0, c0, d0) := h
  let (a, b, c, d) := (List.range 64).foldl (md5Round m) (a0, b0, c0, d0)
  ((a0 + a) % w32, (b0 + b) % w32, (c0 + c) % w32, (d0 + d) % w32)

/-- The `k` little-endian bytes of `n`. -/
def toLEBytes : Nat → Nat → List Nat
  | 0, _ => []
  | k + 1, n => n % 256 :: toLEBytes k (n / 256)

/-- MD5 padding: `0x80`, zeros to 56 mod 64, then the bit length as 8
little-endian bytes. -/
def md5Pad (msg : List Nat) : List Nat :=
  let len := msg.length
  let zeros := (64 + 56 - (len + 1) % 64) % 64
  msg ++ [128] ++ List.replicate zeros 0 ++ toLEBytes 8 ((len * 8) % (w32 * w32))

/-- Split a byte list into 64-byte chunks; the fuel argument (at least the
list length) keeps the recursion structural so the kernel can evaluate it. -/
def chunks64Go : Nat → List Nat → List (List Nat)
  | _, [] => []
  | 0, l => [l]
  | fuel + 1, x :: rest => (x :: rest).take 64 :: chunks64Go fuel ((x :: rest).drop 64)

/-- Split a byte list into 64-byte chunks. -/
def chunks64 (l : List Nat) : List (List Nat) := chunks64Go l.length l

/-- Decode one 64-byte chunk into 16 little-endian 32-bit words. -/
def words16 (chunk : List Nat) : List Nat :=
  (List.range 16).map fun j =>
    chunk.getD (4 * j) 0 + 256 * chunk.getD (4 * j + 1) 0 +
      65536 * chunk.getD (4 * j + 2) 0 + 16777216 * chunk.getD (4 * j + 3) 0

/-- MD5 digest (16 bytes) of a byte list. -/
def md5Bytes (msg : List Nat) : List Nat :=
  let h := (chunks64 (md5Pad msg)).foldl (fun h ch => md5Chunk h (words16 ch))
    (1732584193, 4023233417, 2562383102, 271733878)
  toLEBytes 4 h.1 ++ toLEBytes 4 h.2.1 ++ toLEBytes 4 h.2.2.1 ++ toLEBytes 4 h.2.2.2

/-- The sixteen lowercase hex digits. -/
def hexDigitsList : List Char := "0123456789abcdef".data

/-- Hex digit for `n % 16`. -/
def hexChar (n : Nat) : Char :=
  hexDigitsList.get ⟨n % 16, Nat.mod_lt _ (by decide)⟩

/-- Two lowercase hex digits of a byte. -/
def byteToHex (b : Nat) : List Char := [hexChar (b / 16), hexChar b]

/-- Model of `digest('hex')`: lowercase hex string of a byte list. -/
def bytesToHex (bs : List Nat) : String := ⟨(bs.map byteToHex).flatten⟩

/-- Model of `String.prototype.toUpperCase` restricted to the ASCII range used here. -/
def jsToUpperCase (s : String) : String := ⟨s.data.map Char.toUpper⟩

/-- UTF-8 encoding of one character. -/
def utf8EncodeChar (c : Char) : List Nat :=
  let n := c.toNat
  if n < 128 then [n]
  else if n < 2048 then [192 ||| (n >>> 6), 128 ||| (n &&& 63)]
  else if n < 65536 then
    [224 ||| (n >>> 12), 128 ||| ((n >>> 6) &&& 63), 128 ||| (n &&& 63)]
  else
    [240 ||| (n >>> 18), 128 ||| ((n >>> 12) &&& 63),
     128 ||| ((n >>> 6) &&& 63), 128 ||| (n &&& 63)]

/-- UTF-8 bytes of a string (`hash.update` treats its argument as UTF-8). -/
def utf8Bytes (s : String) : List Nat := (s.toList.map utf8EncodeChar).flatten

/-- The fixed shared secret, concatenated exactly as in `_computeAuth`. -/
def salt : String :=
  "SwPx0b" ++ "jRFqVWm6" ++ "LCQ8et9h" ++ "hYt26L8G" ++ "ktOVB8d1R"

/-- Model of `_computeAuth`: uppercase hex MD5 digest of `challenge + salt`. -/
def computeAuth (challenge : String) : String :=
  jsToUpperCase (bytesToHex (md5Bytes (utf8Bytes (challenge ++ salt))))

/-! ### Instance state and effects -/

/-- status values reported through `updateStatus`. -/
inductive InstanceStatus where
  | Connecting
  | Ok
  | BadConfig
  | ConnectionFailure
  | Disconnected
deriving DecidableEq

/-- The two configuration fields; both arrive from text inputs as strings
(`port` empty means unset, defaulted to `"9000"` at each use site). -/
structure Config where
  host : String
  port : String
deriving DecidableEq

/-- Outbound WebSocket messages, structurally.  The `changeDevice` index is
`none` when `parseInt` produced `NaN`. -/
inductive OutMsg where
  | authResponse (response : String) (device : String)
  | changeDevice (index : Option Int)
  | applyGrade (uid : String)
deriving DecidableEq

/-- Minimal JSON string quoting as performed by `JSON.stringify` on the
strings this module sends (quote, backslash and ASCII controls escaped). -/
def jsonQuote (s : String) : String :=
  "\"" ++ String.join (s.data.map fun c =>
    if c = '"' then "\\\""
    else if c = '\\' then "\\\\"
    else if c = '\n' then "\\n"
    else if c = '\r' then "\\r"
    else if c = '\t' then "\\t"
    else String.singleton c) ++ "\""

/-- Model of `JSON.stringify` on each outbound message, field order as constructed in
the source; `NaN` (an unparseable slot index) serializes as `null`. -/
def serializeOutMsg : OutMsg → String
  | .authResponse r d =>
    "\x7b\"type\":\"authentication\",\"subtype\":\"response\",\"arguments\":\x7b\"response\":"
      ++ jsonQuote r ++ ",\"device\":" ++ jsonQuote d ++ "\x7d\x7d"
  | .changeDevice idx =>
    "\x7b\"type\":\"command\",\"subtype\":\"changeDevice\",\"arguments\":\x7b\"index\":"
      ++ (match idx with | some n => toString n | none => "null") ++ "\x7d\x7d"
  | .applyGrade uid =>
    "\x7b\"type\":\"command\",\"subtype\":\"applyGrade\",\"arguments\":\x7b\"uid\":"
      ++ jsonQuote uid ++ "\x7d\x7d"

/-- Externally visible effects of a method or event handler, in program
order.  Log lines are not tracked. -/
inductive Effect where
  | send (m : OutMsg)
  | closeWs
  | httpGet (url : String)
  | wsConnect (url : String)
  | settleTimer (delayMs : Nat)
deriving DecidableEq

/-- A pending `setTimeout` arming a reconnect. -/
structure Timer where
  id : Nat
  delayMs : Nat
deriving DecidableEq

/-- The mutable fields of `LiveGradeInstance`, plus bookkeeping that makes
the asynchronous environment explicit: `liveTimers` is the set of reconnect
timers currently pending in the event loop (the 500 ms settle timer of the
apply action touches no instance state and is tracked only as an effect),
and `nextWs`/`nextTimerId` mint fresh handles. -/
structure MState where
  config : Config
  ws : Option Nat
  nextWs : Nat
  reconnectTimer : Option Nat
  liveTimers : List Timer
  nextTimerId : Nat
  lastAuthCode : Option String
  slots : JVal
  looks : JVal
  actionsBuilt : Bool
  status : InstanceStatus
  statusMsg : Option String

/-- The field values set up by the constructor (status is whatever the host
reports before `init` runs; `init` immediately overwrites it). -/
def initState (cfg : Config) : MState where
  config := cfg
  ws := none
  nextWs := 0
  reconnectTimer := none
  liveTimers := []
  nextTimerId := 0
  lastAuthCode := none
  slots := .jarr []
  looks := .jarr []
  actionsBuilt := false
  status := .Disconnected
  statusMsg := none

/-- Model of `_scheduleReconnect`: clear any timer the stored handle still refers to,
then arm a fresh 5000 ms timer and store its handle.  (`clearTimeout` on an
already-fired handle removes nothing.) -/
def scheduleReconnect (st : MState) : MState :=
  match st.reconnectTimer with
  | some h =>
    { st with
      reconnectTimer := some st.nextTimerId
      liveTimers := st.liveTimers.filter (fun t => t.id ≠ h) ++ [⟨st.nextTimerId, 5000⟩]
      nextTimerId := st.nextTimerId + 1 }
  | none =>
    { st with
      reconnectTimer := some st.nextTimerId
      liveTimers := st.liveTimers ++ [⟨st.nextTimerId, 5000⟩]
      nextTimerId := st.nextTimerId + 1 }

/-- Model of `_connectWebSocket`.  `ctorErr` is the outcome of `new WebSocket`:
`none` = constructed (handlers installed), `some e` = the constructor threw
with message `e`, landing in the catch branch (and leaving `this.ws` at its
previous value). -/
def connectWebSocket (st : MState) (ctorErr : Option String) : MState × List Effect :=
  let host := jsTrim st.config.host
  let port := jsTrim (if st.config.port = "" then "9000" else st.config.port)
  if host = "" then
    ({ st with status := .BadConfig, statusMsg := some "Enter server IP" }, [])
  else
    let url := "ws://" ++ host ++ ":" ++ port
    match ctorErr with
    | none =>
      ({ st with ws := some st.nextWs, nextWs := st.nextWs + 1 }, [.wsConnect url])
    | some e =>
      (scheduleReconnect { st with status := .ConnectionFailure, statusMsg := some e },
       [.wsConnect url])

/-- Model of `init(config)`. -/
def init (cfg : Config) (ctorErr : Option String) : MState × List Effect :=
  connectWebSocket { initState cfg with status := .Connecting } ctorErr

/-- Model of `configUpdated(config)`: close any existing channel (its close event is
delivered asynchronously), report Connecting, reconnect. -/
def configUpdated (st : MState) (cfg : Config) (ctorErr : Option String) :
    MState × List Effect :=
  let closeEffs : List Effect := match st.ws with | some _ => [.closeWs] | none => []
  let r :=
    connectWebSocket { st with config := cfg, status := .Connecting, statusMsg := none } ctorErr
  (r.1, closeEffs ++ r.2)

/-- Model of `destroy()`: close the channel if any, clear the stored reconnect timer,
report Disconnected.  `this.ws` itself is never nulled by the source. -/
def destroy (st : MState) : MState × List Effect :=
  let closeEffs : List Effect := match st.ws with | some _ => [.closeWs] | none => []
  let st1 :=
    match st.reconnectTimer with
    | some h => { st with liveTimers := st.liveTimers.filter (fun t => t.id ≠ h) }
    | none => st
  ({ st1 with status := .Disconnected, statusMsg := none }, closeEffs)

/-- The channel `open` handler. -/
def onOpen (st : MState) : MState × List Effect :=
  ({ st with status := .Ok, statusMsg := none }, [])

/-- The channel `error` handler. -/
def onError (st : MState) (emsg : String) : MState × List Effect :=
  (scheduleReconnect { st with status := .ConnectionFailure, statusMsg := some emsg }, [])

/-- The channel `close` handler: unconditionally schedules a reconnect. -/
def onClose (st : MState) : MState × List Effect :=
  (scheduleReconnect st, [])

/-- A pending reconnect timer fires: it leaves the pending set and its
callback runs `_connectWebSocket`. -/
def timerFire (st : MState) (h : Nat) (ctorErr : Option String) : MState × List Effect :=
  connectWebSocket { st with liveTimers := st.liveTimers.filter (fun t => t.id ≠ h) } ctorErr

/-! ### Catalog fetcher (`_fetchSlotsAndLooks`, `_buildApplyAction`) -/

/-- The auth credential as interpolated into the fetch URLs
(`this.lastAuthCode` is `null` before any challenge). -/
def authQuery (st : MState) : String :=
  match st.lastAuthCode with
  | some c => c
  | none => "null"

/-- URL of the slot-collection endpoint. -/
def slotsUrl (st : MState) : String :=
  "http://" ++ jsTrim st.config.host ++ ":"
    ++ jsTrim (if st.config.port = "" then "9000" else st.config.port)
    ++ "/devices/slots?auth=" ++ authQuery st

/-- URL of the look-library endpoint. -/
def looksUrl (st : MState) : String :=
  "http://" ++ jsTrim st.config.host ++ ":"
    ++ jsTrim (if st.config.port = "" then "9000" else st.config.port)
    ++ "/library/grades?auth=" ++ authQuery st

/-- Model of `body.result || []` on a parsed response body: property access on `null`
throws (caught by the surrounding try), any other non-object yields
`undefined` and so the empty array, a falsy `result` likewise. -/
def bodyResult : JVal → Except Unit JVal
  | .jnull => .error ()
  | .jobj fields => .ok
      (match lookupField fields "result" with
       | some v => if truthyV v then v else .jarr []
       | none => .jarr [])
  | _ => .ok (.jarr [])

/-- Whether `_buildApplyAction` runs to completion on the given lists:
`.map` exists only on arrays and the per-element property accesses throw on
a `null` element. -/
def buildActionOk (slots looks : JVal) : Bool :=
  (match slots with
   | .jarr xs => xs.all (fun s => !(s matches .jnull))
   | _ => false) &&
  (match looks with
   | .jarr xs => xs.all (fun l => !(l matches .jnull))
   | _ => false)

/-- Model of `_fetchSlotsAndLooks`, with the outcome of each HTTP round trip passed
in as an oracle: `none` means the request or its JSON body parse failed
(rejecting the corresponding `await` into the catch branch).  The returned
effects are the HTTP requests actually issued, in order; the second request
is only issued after the first resolved. -/
def fetchSlotsAndLooks (st : MState) (slotResp lookResp : Option JVal) :
    MState × List Effect :=
  match slotResp with
  | none => (st, [.httpGet (slotsUrl st)])
  | some body1 =>
    match bodyResult body1 with
    | .error _ => (st, [.httpGet (slotsUrl st)])
    | .ok newSlots =>
      match lookResp with
      | none =>
        ({ st with slots := newSlots }, [.httpGet (slotsUrl st), .httpGet (looksUrl st)])
      | some body2 =>
        match bodyResult body2 with
        | .error _ =>
          ({ st with slots := newSlots }, [.httpGet (slotsUrl st), .httpGet (looksUrl st)])
        | .ok newLooks =>
          ({ st with
              slots := newSlots
              looks := newLooks
              actionsBuilt := buildActionOk newSlots newLooks || st.actionsBuilt },
           [.httpGet (slotsUrl st), .httpGet (looksUrl st)])

/-! ### Protocol handler (`_onWsMessage`) -/

/-- Model of `_onWsMessage`.  `parsed` is the outcome of `JSON.parse(raw)` (`none` =
it threw, caught by the handler itself).  `slotResp`/`lookResp` are the
oracles for the catalogue fetch the success branch fires.  `Except.error`
marks a JavaScript exception escaping the handler (property access on a
`null`/missing `arguments`, or a method call on a `null` socket). -/
def onWsMessage (st : MState) (parsed : Option JVal) (slotResp lookResp : Option JVal) :
    Except Unit (MState × List Effect) :=
  match parsed with
  | none => .ok (st, [])
  | some .jnull => .error ()
  | some msg =>
    match getField msg "type", getField msg "subtype" with
    | some (.jstr "authentication"), some (.jstr "challenge") =>
      match getField msg "arguments" with
      | none => .error ()
      | some .jnull => .error ()
      | some args =>
        let code := computeAuth (jsToString (getField args "challenge"))
        match st.ws with
        | none => .error ()
        | some _ =>
          .ok ({ st with lastAuthCode := some code },
               [.send (.authResponse code "Companion")])
    | some (.jstr "authentication"), some (.jstr "result") =>
      match getField msg "arguments" with
      | none => .error ()
      | some .jnull => .error ()
      | some args =>
        if truthyOpt (getField args "success") then
          .ok (fetchSlotsAndLooks st slotResp lookResp)
        else
          match st.ws with
          | none => .error ()
          | some _ => .ok (st, [.closeWs])
    | _, _ => .ok (st, [])

/-! ### Command dispatcher (the `applyGrade` action callback) -/

/-- Model of `parseInt` with an undefined radix: trim, optional sign, a `0x`/`0X`
prefix selects base 16, otherwise base 10; the longest valid digit prefix is
converted and an empty one yields `NaN` (`none`). -/
def jsParseIntCore (cs : List Char) : Option Nat :=
  match cs with
  | '0' :: 'x' :: rest =>
    let ds := rest.takeWhile (fun c => c.isDigit || ('a' ≤ c && c ≤ 'f') || ('A' ≤ c && c ≤ 'F'))
    if ds = [] then none
    else some (ds.foldl (fun a c =>
      a * 16 + (if c.isDigit then c.toNat - 48
                else if 'a' ≤ c && c ≤ 'f' then c.toNat - 87
                else c.toNat - 55)) 0)
  | '0' :: 'X' :: rest =>
    let ds := rest.takeWhile (fun c => c.isDigit || ('a' ≤ c && c ≤ 'f') || ('A' ≤ c && c ≤ 'F'))
    if ds = [] then none
    else some (ds.foldl (fun a c =>
      a * 16 + (if c.isDigit then c.toNat - 48
                else if 'a' ≤ c && c ≤ 'f' then c.toNat - 87
                else c.toNat - 55)) 0)
  | _ =>
    let ds := cs.takeWhile Char.isDigit
    if ds = [] then none
    else some (ds.foldl (fun a c => a * 10 + (c.toNat - 48)) 0)

/-- Model of `parseInt(action.options.slot)`: `none` is `NaN`. -/
def jsParseInt (s : String) : Option Int :=
  match (jsTrim s).toList with
  | '-' :: rest => (jsParseIntCore rest).map (fun n => -(n : Int))
  | '+' :: rest => (jsParseIntCore rest).map (fun n => (n : Int))
  | cs => (jsParseIntCore cs).map (fun n => (n : Int))

/-- The `applyGrade` action callback: parse the slot option, send the
`changeDevice` command, send the `applyGrade` command, then arm the 500 ms
settle timer.  It reads no instance state besides the socket, and
`this.ws.send` on a never-connected instance (`null` socket) throws. -/
def applyGradeCallback (st : MState) (slotOpt lookOpt : String) :
    Except Unit (List Effect) :=
  match st.ws with
  | none => .error ()
  | some _ =>
    let slot := jsParseInt slotOpt
    .ok [.send (.changeDevice slot), .send (.applyGrade lookOpt), .settleTimer 500]

/-- The settle timer callback: it only logs, so it changes no state and
performs no protocol action. -/
def settleTimerFire (st : MState) : MState × List Effect := (st, [])

/-! ### The asynchronous environment

`Reaches` closes the initial states under every event the host or the
channel can deliver.  Message events are only taken when the handler does
not raise (a raised handler exception aborts the process and is outside
the state space). -/

/-- States an instance can be in, starting from `init` and following any
interleaving of events. -/
inductive Reaches : MState → Prop where
  | start (cfg : Config) (e : Option String) : Reaches (init cfg e).1
  | wsOpen (st : MState) : Reaches st → Reaches (onOpen st).1
  | wsError (st : MState) (m : String) : Reaches st → Reaches (onError st m).1
  | wsClose (st : MState) : Reaches st → Reaches (onClose st).1
  | wsMsg (st : MState) (pm slotResp lookResp : Option JVal) (st2 : MState)
      (effs : List Effect) : Reaches st →
      onWsMessage st pm slotResp lookResp = .ok (st2, effs) → Reaches st2
  | timer (st : MState) (t : Timer) (e : Option String) : Reaches st →
      t ∈ st.liveTimers → Reaches (timerFire st t.id e).1
  | reconf (st : MState) (cfg : Config) (e : Option String) : Reaches st →
      Reaches (configUpdated st cfg e).1
  | stop (st : MState) : Reaches st → Reaches (destroy st).1

/-! ## Supporting lemmas -/

/-- The sixteen uppercase hex digits, i.e. the alphabet the auth code is
drawn from. -/
def upperHexChars : List Char := "0123456789ABCDEF".data

theorem toLEBytes_length (k n : Nat) : (toLEBytes k n).length = k := by
  induction k generalizing n with
  | zero => rfl
  | succ k ih => simp [toLEBytes, ih]

theorem md5Bytes_length (m : List Nat) : (md5Bytes m).length = 16 := by
  unfold md5Bytes
  simp [toLEBytes_length]

theorem hexData_length (bs : List Nat) :
    ((bs.map byteToHex).flatten).length = 2 * bs.length := by
  induction bs with
  | nil => rfl
  | cons b rest ih => simp [byteToHex, ih]; omega

theorem hexChar_mem (n : Nat) : hexChar n ∈ hexDigitsList := by
  unfold hexChar
  exact List.get_mem _ _ _

theorem toUpper_hexDigit_mem :
    ∀ c ∈ hexDigitsList, c.toUpper ∈ upperHexChars := by decide

theorem computeAuth_chars_aux (s : String) :
    ∀ c ∈ (computeAuth s).data, c ∈ upperHexChars := by
  intro c hc
  have hc2 : c ∈ (bytesToHex (md5Bytes (utf8Bytes (s ++ salt)))).data.map Char.toUpper := hc
  rw [List.mem_map] at hc2
  obtain ⟨c0, hc0, rfl⟩ := hc2
  apply toUpper_hexDigit_mem
  have hc3 : c0 ∈ ((md5Bytes (utf8Bytes (s ++ salt))).map byteToHex).flatten := hc0
  rw [List.mem_flatten] at hc3
  obtain ⟨piece, hpiece, hcp⟩ := hc3
  rw [List.mem_map] at hpiece
  obtain ⟨b, _, rfl⟩ := hpiece
  simp only [byteToHex, List.mem_cons, List.not_mem_nil, or_false] at hcp
  rcases hcp with rfl | rfl
  · exact hexChar_mem _
  · exact hexChar_mem _

theorem computeAuth_length (s : String) : (computeAuth s).length = 32 := by
  have h1 : (computeAuth s).length
      = ((bytesToHex (md5Bytes (utf8Bytes (s ++ salt)))).data.map Char.toUpper).length := rfl
  have h2 : (bytesToHex (md5Bytes (utf8Bytes (s ++ salt)))).data
      = ((md5Bytes (utf8Bytes (s ++ salt))).map byteToHex).flatten := rfl
  rw [h1, List.length_map, h2, hexData_length, md5Bytes_length]

/-! ## Claims -/

/-- C3: `computeAuth` is a pure function equal to the uppercase hex MD5
digest of the UTF-8 bytes of the challenge with the fixed shared secret
appended (challenge first); it always returns a 32-character string drawn
from the uppercase hex alphabet, and on challenge "abc123" it equals the
uppercased MD5 hex digest of "abc123" ++ secret
(`310B2C0FD71FD959759D1B93D2EF4AF0`, the reference digest of
"abc123SwPx0bjRFqVWm6LCQ8et9hhYt26L8GktOVB8d1R"). -/
theorem c3_computeAuth_correct :
    (∀ s : String,
      computeAuth s = jsToUpperCase (bytesToHex (md5Bytes (utf8Bytes (s ++ salt))))) ∧
    (∀ s : String, (computeAuth s).length = 32) ∧
    (∀ s : String, ∀ c ∈ (computeAuth s).data, c ∈ upperHexChars) ∧
    computeAuth "abc123" = "310B2C0FD71FD959759D1B93D2EF4AF0" :=
  ⟨fun _ => rfl, computeAuth_length, computeAuth_chars_aux, by decide⟩

/-- Witness for C3: the membership hypothesis discharged on the fixed
vector and its first character. -/
theorem c3_computeAuth_correct_witness : '3' ∈ upperHexChars :=
  c3_computeAuth_correct.2.2.1 "abc123" '3' (by decide)

/-- C7: an inbound frame that fails to parse as JSON is silently dropped —
the handler does not throw, emits no effect, and returns the state
unchanged (connection status, cached lists and last computed code
included). -/
theorem c7_unparseable_frame_noop (st : MState) (slotResp lookResp : Option JVal) :
    onWsMessage st none slotResp lookResp = .ok (st, []) := rfl

/-- C6: an `applyGrade` invocation whose slot option parses as integer `n`
sends exactly the `changeDevice n` message, then the `applyGrade uid`
message, then arms the 500 ms settle timer and nothing else — whatever the
cached slot/look lists hold (the callback never reads them) — and the
settle timer firing performs no protocol action and changes no state. -/
theorem c6_applyGrade_sends_exactly_two (st : MState) (sock : Nat)
    (slotOpt lookOpt : String) (n : Int)
    (hws : st.ws = some sock) (hparse : jsParseInt slotOpt = some n) :
    applyGradeCallback st slotOpt lookOpt
      = .ok [.send (.changeDevice (some n)), .send (.applyGrade lookOpt), .settleTimer 500]
    ∧ settleTimerFire st = (st, []) := by
  constructor
  · simp [applyGradeCallback, hws, hparse]
  · rfl

/-- Witness for C6: `applyGrade` with slot "3" and look "uid-xyz" on a
freshly connected instance. -/
theorem c6_applyGrade_sends_exactly_two_witness :
    applyGradeCallback (init ⟨"10.0.0.1", "9000"⟩ none).1 "3" "uid-xyz"
      = .ok [.send (.changeDevice (some 3)), .send (.applyGrade "uid-xyz"), .settleTimer 500]
    ∧ settleTimerFire (init ⟨"10.0.0.1", "9000"⟩ none).1
      = ((init ⟨"10.0.0.1", "9000"⟩ none).1, []) :=
  c6_applyGrade_sends_exactly_two _ 0 "3" "uid-xyz" 3 (by decide) (by decide)

/-- C10: an `applyGrade` invocation whose slot option does not parse as an
integer is not rejected locally — both messages are still sent, the
`changeDevice` index being `NaN`, which `JSON.stringify` serializes as
JSON `null` on the wire. -/
theorem c10_nan_slot_sends_null_index (st : MState) (sock : Nat)
    (slotOpt lookOpt : String)
    (hws : st.ws = some sock) (hparse : jsParseInt slotOpt = none) :
    applyGradeCallback st slotOpt lookOpt
      = .ok [.send (.changeDevice none), .send (.applyGrade lookOpt), .settleTimer 500]
    ∧ serializeOutMsg (.changeDevice none)
      = "\x7b\"type\":\"command\",\"subtype\":\"changeDevice\",\"arguments\":\x7b\"index\":null\x7d\x7d" := by
  constructor
  · simp [applyGradeCallback, hws, hparse]
  · rfl

/-- Witness for C10: slot option "not-a-number" on a freshly connected
instance. -/
theorem c10_nan_slot_sends_null_index_witness :
    applyGradeCallback (init ⟨"10.0.0.1", "9000"⟩ none).1 "not-a-number" "uid-1"
      = .ok [.send (.changeDevice none), .send (.applyGrade "uid-1"), .settleTimer 500]
    ∧ serializeOutMsg (.changeDevice none)
      = "\x7b\"type\":\"command\",\"subtype\":\"changeDevice\",\"arguments\":\x7b\"index\":null\x7d\x7d" :=
  c10_nan_slot_sends_null_index _ 0 "not-a-number" "uid-1" (by decide) (by decide)

/-- C9: with a blank (empty or whitespace-only) host, `init` and
`configUpdated` report BadConfig, open no socket and schedule no reconnect
in that path; moreover even a stale reconnect timer firing makes no
connection attempt while the host is blank, so BadConfig persists until
reconfigured. -/
theorem c9_blank_host_badconfig (cfg : Config) (st : MState) (e : Option String)
    (hblank : jsTrim cfg.host = "") :
    ((init cfg e).1.status = .BadConfig
      ∧ (init cfg e).2 = []
      ∧ (init cfg e).1.ws = none
      ∧ (init cfg e).1.liveTimers = [])
    ∧ ((configUpdated st cfg e).1.status = .BadConfig
      ∧ (∀ eff ∈ (configUpdated st cfg e).2, eff = Effect.closeWs)
      ∧ (configUpdated st cfg e).1.ws = st.ws
      ∧ (configUpdated st cfg e).1.liveTimers = st.liveTimers)
    ∧ (∀ st2 : MState, ∀ h2 : Nat, ∀ e2 : Option String,
        jsTrim st2.config.host = "" →
        (timerFire st2 h2 e2).2 = []
        ∧ (timerFire st2 h2 e2).1.status = .BadConfig
        ∧ (timerFire st2 h2 e2).1.ws = st2.ws) := by
  refine ⟨?_, ?_, ?_⟩
  · simp [init, initState, connectWebSocket, hblank]
  · constructor
    · simp [configUpdated, connectWebSocket, hblank]
    constructor
    · intro eff heff
      simp [configUpdated, connectWebSocket, hblank] at heff
      cases hw : st.ws with
      | none => rw [hw] at heff; simp at heff
      | some s => rw [hw] at heff; simp at heff; exact heff
    · simp [configUpdated, connectWebSocket, hblank]
  · intro st2 h2 e2 hb2
    simp [timerFire, connectWebSocket, hb2]

/-- Witness for C9: blank host config, applied to an instance that was
previously connected to a good host. -/
theorem c9_blank_host_badconfig_witness :
    ((init ⟨"   ", "9000"⟩ none).1.status = .BadConfig
      ∧ (init ⟨"   ", "9000"⟩ none).2 = []
      ∧ (init ⟨"   ", "9000"⟩ none).1.ws = none
      ∧ (init ⟨"   ", "9000"⟩ none).1.liveTimers = [])
    ∧ ((configUpdated (init ⟨"10.0.0.1", "9000"⟩ none).1 ⟨"   ", "9000"⟩ none).1.status
          = .BadConfig
      ∧ (∀ eff ∈ (configUpdated (init ⟨"10.0.0.1", "9000"⟩ none).1 ⟨"   ", "9000"⟩ none).2,
          eff = Effect.closeWs)
      ∧ (configUpdated (init ⟨"10.0.0.1", "9000"⟩ none).1 ⟨"   ", "9000"⟩ none).1.ws
          = (init ⟨"10.0.0.1", "9000"⟩ none).1.ws
      ∧ (configUpdated (init ⟨"10.0.0.1", "9000"⟩ none).1 ⟨"   ", "9000"⟩ none).1.liveTimers
          = (init ⟨"10.0.0.1", "9000"⟩ none).1.liveTimers)
    ∧ (∀ st2 : MState, ∀ h2 : Nat, ∀ e2 : Option String,
        jsTrim st2.config.host = "" →
        (timerFire st2 h2 e2).2 = []
        ∧ (timerFire st2 h2 e2).1.status = .BadConfig
        ∧ (timerFire st2 h2 e2).1.ws = st2.ws) :=
  c9_blank_host_badconfig ⟨"   ", "9000"⟩ (init ⟨"10.0.0.1", "9000"⟩ none).1 none (by decide)

/-- C4: a message tagged as an authentication challenge carrying challenge
string `chal` makes the handler send exactly one authentication-response
whose `response` field is `computeAuth chal` and whose `device` field is
the fixed identifier "Companion", and store the code as the session's last
computed code; nothing else in the state changes. -/
theorem c4_challenge_sends_one_response (st : MState) (sock : Nat) (msg args : JVal)
    (chal : String) (slotResp lookResp : Option JVal)
    (hws : st.ws = some sock)
    (hty : getField msg "type" = some (.jstr "authentication"))
    (hsub : getField msg "subtype" = some (.jstr "challenge"))
    (hargs : getField msg "arguments" = some args)
    (hchal : getField args "challenge" = some (.jstr chal)) :
    onWsMessage st (some msg) slotResp lookResp
      = .ok ({ st with lastAuthCode := some (computeAuth chal) },
             [.send (.authResponse (computeAuth chal) "Companion")]) := by
  cases msg with
  | jobj fs =>
    cases args with
    | jobj afs =>
      simp [onWsMessage, hty, hsub, hargs, hchal, hws, jsToString]
    | jnull => simp [getField] at hchal
    | jbool b => simp [getField] at hchal
    | jnum n => simp [getField] at hchal
    | jstr s => simp [getField] at hchal
    | jarr xs => simp [getField] at hchal
  | jnull => simp [getField] at hty
  | jbool b => simp [getField] at hty
  | jnum n => simp [getField] at hty
  | jstr s => simp [getField] at hty
  | jarr xs => simp [getField] at hty

/-- Witness for C4: a concrete challenge frame on a freshly connected
instance. -/
theorem c4_challenge_sends_one_response_witness :
    onWsMessage (init ⟨"10.0.0.1", "9000"⟩ none).1
        (some (.jobj [("type", .jstr "authentication"), ("subtype", .jstr "challenge"),
          ("arguments", .jobj [("challenge", .jstr "abc123")])]))
        none none
      = .ok ({ (init ⟨"10.0.0.1", "9000"⟩ none).1 with
                lastAuthCode := some (computeAuth "abc123") },
             [.send (.authResponse (computeAuth "abc123") "Companion")]) :=
  c4_challenge_sends_one_response _ 0 _ (.jobj [("challenge", .jstr "abc123")])
    "abc123" none none (by decide) rfl rfl rfl rfl

/-- C1 counterexample: on an instance holding a previous slot and look
list, a successful slot fetch followed by a failing look fetch leaves the
Slot list overwritten — refuting the claim that a failure during either
step leaves both previous lists untouched. -/
theorem c1_fetch_partial_overwrite_counterexample :
    (fetchSlotsAndLooks
        { initState ⟨"10.0.0.1", "9000"⟩ with
            slots := .jarr [.jstr "oldSlot"], looks := .jarr [.jstr "oldLook"] }
        (some (.jobj [("result", .jarr [.jobj [("index", .jnum 1)]])]))
        none).1.slots
      = .jarr [.jobj [("index", .jnum 1)]]
    ∧ (fetchSlotsAndLooks
        { initState ⟨"10.0.0.1", "9000"⟩ with
            slots := .jarr [.jstr "oldSlot"], looks := .jarr [.jstr "oldLook"] }
        (some (.jobj [("result", .jarr [.jobj [("index", .jnum 1)]])]))
        none).1.slots
      ≠ .jarr [.jstr "oldSlot"]
    ∧ (fetchSlotsAndLooks
        { initState ⟨"10.0.0.1", "9000"⟩ with
            slots := .jarr [.jstr "oldSlot"], looks := .jarr [.jstr "oldLook"] }
        (some (.jobj [("result", .jarr [.jobj [("index", .jnum 1)]])]))
        none).1.looks
      = .jarr [.jstr "oldLook"] := by
  refine ⟨rfl, ?_, rfl⟩
  intro h
  simp [fetchSlotsAndLooks, bodyResult, lookupField, truthyV] at h

/-- C1 (amended): a failure during the slot fetch (network/parse failure,
or a `null` body) aborts the sequence before any list is written — both
previous lists survive and the look fetch is never issued; a failure during
the look fetch aborts the rest of the sequence and leaves the previous Look
list untouched, but the Slot list has by then already been replaced with
the freshly fetched slots.  In either case the action definitions are not
rebuilt and the last computed code is untouched. -/
theorem c1_fetch_failure_isolation (st : MState) (lookResp : Option JVal) :
    (fetchSlotsAndLooks st none lookResp = (st, [.httpGet (slotsUrl st)]))
    ∧ (∀ b : JVal, bodyResult b = .error () →
        fetchSlotsAndLooks st (some b) lookResp = (st, [.httpGet (slotsUrl st)]))
    ∧ (∀ b newSlots, bodyResult b = .ok newSlots →
        (fetchSlotsAndLooks st (some b) none).1
            = { st with slots := newSlots }
        ∧ (fetchSlotsAndLooks st (some b) none).1.looks = st.looks
        ∧ (fetchSlotsAndLooks st (some b) none).1.actionsBuilt = st.actionsBuilt
        ∧ (fetchSlotsAndLooks st (some b) none).1.lastAuthCode = st.lastAuthCode
        ∧ (fetchSlotsAndLooks st (some b) none).2
            = [.httpGet (slotsUrl st), .httpGet (looksUrl st)])
    ∧ (∀ b b2 newSlots, bodyResult b = .ok newSlots → bodyResult b2 = .error () →
        (fetchSlotsAndLooks st (some b) (some b2)).1
            = { st with slots := newSlots }) := by
  refine ⟨rfl, ?_, ?_, ?_⟩
  · intro b hb
    simp [fetchSlotsAndLooks, hb]
  · intro b newSlots hb
    simp [fetchSlotsAndLooks, hb]
  · intro b b2 newSlots hb hb2
    simp [fetchSlotsAndLooks, hb, hb2]

/-- Witness for C1 (amended): slot body parse failure (`null` body) on one
side, and a successful slot step with failing look step on the other. -/
theorem c1_fetch_failure_isolation_witness :
    (fetchSlotsAndLooks (initState ⟨"10.0.0.1", "9000"⟩) none none
        = (initState ⟨"10.0.0.1", "9000"⟩, [.httpGet (slotsUrl (initState ⟨"10.0.0.1", "9000"⟩))]))
    ∧ (fetchSlotsAndLooks (initState ⟨"10.0.0.1", "9000"⟩) (some .jnull) none
        = (initState ⟨"10.0.0.1", "9000"⟩, [.httpGet (slotsUrl (initState ⟨"10.0.0.1", "9000"⟩))]))
    ∧ (fetchSlotsAndLooks (initState ⟨"10.0.0.1", "9000"⟩)
          (some (.jobj [("result", .jarr [.jnum 7])])) (some .jnull)).1
        = { initState ⟨"10.0.0.1", "9000"⟩ with slots := .jarr [.jnum 7] } :=
  ⟨(c1_fetch_failure_isolation (initState ⟨"10.0.0.1", "9000"⟩) none).1,
   (c1_fetch_failure_isolation (initState ⟨"10.0.0.1", "9000"⟩) none).2.1 .jnull rfl,
   (c1_fetch_failure_isolation (initState ⟨"10.0.0.1", "9000"⟩) (some .jnull)).2.2.2
     (.jobj [("result", .jarr [.jnum 7])]) .jnull (.jarr [.jnum 7]) rfl rfl⟩

/-- C5: a received authentication result with success triggers exactly one
catalogue fetch sequence — the slot request is always the first request
issued, a look request follows exactly when the slot request resolved (and
never precedes it, the sequence being strictly ordered); a result without
success closes the channel, changes no state and issues no fetch. -/
theorem c5_auth_result_drives_fetch (st : MState) (sock : Nat) (msg args : JVal)
    (slotResp lookResp : Option JVal)
    (hty : getField msg "type" = some (.jstr "authentication"))
    (hsub : getField msg "subtype" = some (.jstr "result"))
    (hargs : getField msg "arguments" = some args) :
    (getField args "success" = some (.jbool true) →
        onWsMessage st (some msg) slotResp lookResp
          = .ok (fetchSlotsAndLooks st slotResp lookResp)
        ∧ ((fetchSlotsAndLooks st slotResp lookResp).2 = [.httpGet (slotsUrl st)]
           ∨ (fetchSlotsAndLooks st slotResp lookResp).2
               = [.httpGet (slotsUrl st), .httpGet (looksUrl st)])
        ∧ (slotResp = none →
            (fetchSlotsAndLooks st slotResp lookResp).2 = [.httpGet (slotsUrl st)])
        ∧ (∀ b newSlots, slotResp = some b → bodyResult b = .ok newSlots →
            (fetchSlotsAndLooks st slotResp lookResp).2
              = [.httpGet (slotsUrl st), .httpGet (looksUrl st)]))
    ∧ (getField args "success" = some (.jbool false) → st.ws = some sock →
        onWsMessage st (some msg) slotResp lookResp = .ok (st, [.closeWs])) := by
  have hmsg : ∃ fs, msg = .jobj fs := by
    cases msg with
    | jobj fs => exact ⟨fs, rfl⟩
    | jnull => simp [getField] at hty
    | jbool b => simp [getField] at hty
    | jnum n => simp [getField] at hty
    | jstr s => simp [getField] at hty
    | jarr xs => simp [getField] at hty
  obtain ⟨fs, rfl⟩ := hmsg
  constructor
  · intro hsucc
    have hargsnn : ∃ afs, args = .jobj afs := by
      cases args with
      | jobj afs => exact ⟨afs, rfl⟩
      | jnull => simp [getField] at hsucc
      | jbool b => simp [getField] at hsucc
      | jnum n => simp [getField] at hsucc
      | jstr s => simp [getField] at hsucc
      | jarr xs => simp [getField] at hsucc
    obtain ⟨afs, rfl⟩ := hargsnn
    refine ⟨?_, ?_, ?_, ?_⟩
    · simp [onWsMessage, hty, hsub, hargs, hsucc, truthyOpt, truthyV]
    · cases slotResp with
      | none => exact .inl rfl
      | some b =>
        cases hb : bodyResult b with
        | error e => exact .inl (by simp [fetchSlotsAndLooks, hb])
        | ok v =>
          refine .inr ?_
          cases lookResp with
          | none => simp [fetchSlotsAndLooks, hb]
          | some b2 =>
            cases hb2 : bodyResult b2 with
            | error e => simp [fetchSlotsAndLooks, hb, hb2]
            | ok v2 => simp [fetchSlotsAndLooks, hb, hb2]
    · intro hnone
      subst hnone
      rfl
    · intro b newSlots hsr hbr
      subst hsr
      cases lookResp with
      | none => simp [fetchSlotsAndLooks, hbr]
      | some b2 =>
        cases hb2 : bodyResult b2 with
        | error e => simp [fetchSlotsAndLooks, hbr, hb2]
        | ok v2 => simp [fetchSlotsAndLooks, hbr, hb2]
  · intro hsucc hws
    have hargsnn : ∃ afs, args = .jobj afs := by
      cases args with
      | jobj afs => exact ⟨afs, rfl⟩
      | jnull => simp [getField] at hsucc
      | jbool b => simp [getField] at hsucc
      | jnum n => simp [getField] at hsucc
      | jstr s => simp [getField] at hsucc
      | jarr xs => simp [getField] at hsucc
    obtain ⟨afs, rfl⟩ := hargsnn
    simp [onWsMessage, hty, hsub, hargs, hsucc, truthyOpt, truthyV, hws]

/-- Witness for C5: a success result driving a full fetch on a fresh
instance, and a failure result closing the channel. -/
theorem c5_auth_result_drives_fetch_witness :
    onWsMessage (init ⟨"10.0.0.1", "9000"⟩ none).1
        (some (.jobj [("type", .jstr "authentication"), ("subtype", .jstr "result"),
          ("arguments", .jobj [("success", .jbool true)])]))
        (some (.jobj [("result", .jarr [])])) (some (.jobj [("result", .jarr [])]))
      = .ok (fetchSlotsAndLooks (init ⟨"10.0.0.1", "9000"⟩ none).1
          (some (.jobj [("result", .jarr [])])) (some (.jobj [("result", .jarr [])])))
    ∧ onWsMessage (init ⟨"10.0.0.1", "9000"⟩ none).1
        (some (.jobj [("type", .jstr "authentication"), ("subtype", .jstr "result"),
          ("arguments", .jobj [("success", .jbool false)])]))
        none none
      = .ok ((init ⟨"10.0.0.1", "9000"⟩ none).1, [.closeWs]) :=
  ⟨((c5_auth_result_drives_fetch (init ⟨"10.0.0.1", "9000"⟩ none).1 0
      (.jobj [("type", .jstr "authentication"), ("subtype", .jstr "result"),
        ("arguments", .jobj [("success", .jbool true)])])
      (.jobj [("success", .jbool true)])
      (some (.jobj [("result", .jarr [])])) (some (.jobj [("result", .jarr [])]))
      rfl rfl rfl).1 rfl).1,
   (c5_auth_result_drives_fetch (init ⟨"10.0.0.1", "9000"⟩ none).1 0
      (.jobj [("type", .jstr "authentication"), ("subtype", .jstr "result"),
        ("arguments", .jobj [("success", .jbool false)])])
      (.jobj [("success", .jbool false)])
      none none rfl rfl rfl).2 rfl (by decide)⟩

/-- C2: the code violates this claim.  `destroy()` does clear the pending
reconnect timer, but the `close` event that the stop-initiated `ws.close()`
triggers runs the unconditional close handler, which schedules a fresh
5000 ms reconnect timer; when that timer fires, a new connection attempt is
made — so the stopped state is not terminal. -/
theorem c2_stop_then_close_still_reconnects :
    (destroy (init ⟨"10.0.0.1", "9000"⟩ none).1).1.liveTimers = []
    ∧ (onClose (destroy (init ⟨"10.0.0.1", "9000"⟩ none).1).1).1.liveTimers
        = [⟨0, 5000⟩]
    ∧ (timerFire (onClose (destroy (init ⟨"10.0.0.1", "9000"⟩ none).1).1).1 0 none).2
        = [.wsConnect "ws://10.0.0.1:9000"] := by decide

/-- The reconnect-timer invariant: at most one reconnect timer is pending,
it was armed with the fixed 5000 ms delay, and the stored handle refers to
it. -/
def TimerInv (st : MState) : Prop :=
  st.liveTimers.length ≤ 1
  ∧ ∀ t ∈ st.liveTimers, t.delayMs = 5000 ∧ st.reconnectTimer = some t.id

theorem timerInv_of_fields (st st2 : MState) (h1 : st2.liveTimers = st.liveTimers)
    (h2 : st2.reconnectTimer = st.reconnectTimer) (h : TimerInv st) : TimerInv st2 := by
  unfold TimerInv at h ⊢
  rw [h1, h2]
  exact h

theorem timerInv_schedule (st : MState) (h : TimerInv st) :
    TimerInv (scheduleReconnect st) := by
  obtain ⟨hlen, hall⟩ := h
  cases hrt : st.reconnectTimer with
  | none =>
    have hnil : st.liveTimers = [] := by
      cases hl : st.liveTimers with
      | nil => rfl
      | cons t ts =>
        have h2 := (hall t (by rw [hl]; exact List.mem_cons_self t ts)).2
        rw [hrt] at h2
        cases h2
    simp only [scheduleReconnect, hrt, hnil]
    refine ⟨by simp, ?_⟩
    intro t ht
    simp only [List.nil_append, List.mem_singleton] at ht
    subst ht
    exact ⟨rfl, rfl⟩
  | some hh =>
    have hfil : st.liveTimers.filter (fun t => t.id ≠ hh) = [] := by
      rw [List.filter_eq_nil_iff]
      intro t ht
      have h2 := (hall t ht).2
      rw [hrt] at h2
      injection h2 with h4
      simp [← h4]
    simp only [scheduleReconnect, hrt, hfil]
    refine ⟨by simp, ?_⟩
    intro t ht
    simp only [List.nil_append, List.mem_singleton] at ht
    subst ht
    exact ⟨rfl, rfl⟩

theorem timerInv_filter (st : MState) (p : Timer → Bool) (h : TimerInv st) :
    TimerInv { st with liveTimers := st.liveTimers.filter p } := by
  obtain ⟨hlen, hall⟩ := h
  refine ⟨le_trans (List.length_filter_le _ _) hlen, ?_⟩
  intro t ht
  exact hall t (List.mem_of_mem_filter ht)

theorem timerInv_connect (st : MState) (e : Option String) (h : TimerInv st) :
    TimerInv (connectWebSocket st e).1 := by
  by_cases hh : jsTrim st.config.host = ""
  · simp only [connectWebSocket, hh, if_pos rfl]
    exact timerInv_of_fields st _ rfl rfl h
  · cases e with
    | none =>
      simp only [connectWebSocket, if_neg hh]
      exact timerInv_of_fields st _ rfl rfl h
    | some m =>
      simp only [connectWebSocket, if_neg hh]
      exact timerInv_schedule _ (timerInv_of_fields st _ rfl rfl h)

theorem fetch_preserves_timers (st : MState) (sr lr : Option JVal) :
    (fetchSlotsAndLooks st sr lr).1.liveTimers = st.liveTimers
    ∧ (fetchSlotsAndLooks st sr lr).1.reconnectTimer = st.reconnectTimer := by
  cases sr with
  | none => exact ⟨rfl, rfl⟩
  | some b =>
    cases hb : bodyResult b with
    | error e => simp [fetchSlotsAndLooks, hb]
    | ok v =>
      cases lr with
      | none => simp [fetchSlotsAndLooks, hb]
      | some b2 =>
        cases hb2 : bodyResult b2 with
        | error e2 => simp [fetchSlotsAndLooks, hb, hb2]
        | ok v2 => simp [fetchSlotsAndLooks, hb, hb2]

theorem timerInv_msg (st st2 : MState) (pm sr lr : Option JVal) (effs : List Effect)
    (hok : onWsMessage st pm sr lr = .ok (st2, effs)) (h : TimerInv st) : TimerInv st2 := by
  unfold onWsMessage at hok
  split at hok
  · cases hok
    exact h
  · cases hok
  · split at hok
    · split at hok
      · cases hok
      · cases hok
      · split at hok
        · cases hok
        · cases hok
          exact timerInv_of_fields st _ rfl rfl h
    · split at hok
      · cases hok
      · cases hok
      · split at hok
        · have h2 : fetchSlotsAndLooks st sr lr = (st2, effs) := by
            injection hok
          have h3 : st2 = (fetchSlotsAndLooks st sr lr).1 := by rw [h2]
          rw [h3]
          exact timerInv_of_fields st _ (fetch_preserves_timers st sr lr).1
            (fetch_preserves_timers st sr lr).2 h
        · split at hok
          · cases hok
          · cases hok
            exact h
    · cases hok
      exact h

theorem reaches_timerInv (st : MState) (h : Reaches st) : TimerInv st := by
  induction h with
  | start cfg e =>
    apply timerInv_connect
    exact ⟨by simp [initState], by intro t ht; simp [initState] at ht⟩
  | wsOpen st h ih => exact timerInv_of_fields st _ rfl rfl ih
  | wsError st m h ih => exact timerInv_schedule _ (timerInv_of_fields st _ rfl rfl ih)
  | wsClose st h ih => exact timerInv_schedule _ ih
  | wsMsg st pm sr lr st2 effs h hok ih => exact timerInv_msg st st2 pm sr lr effs hok ih
  | timer st t e h hmem ih =>
    apply timerInv_connect
    exact timerInv_filter st _ ih
  | reconf st cfg e h ih =>
    apply timerInv_connect
    exact timerInv_of_fields st _ rfl rfl ih
  | stop st h ih =>
    cases hrt : st.reconnectTimer with
    | none =>
      simp only [destroy, hrt]
      exact timerInv_of_fields st _ rfl (by rw [hrt]) ih
    | some hh =>
      simp only [destroy, hrt]
      exact timerInv_of_fields { st with liveTimers := st.liveTimers.filter (fun t => t.id ≠ hh) }
        _ rfl hrt.symm (timerInv_filter st _ ih)

/-- C8 counterexample: after a connection error a 5000 ms reconnect timer
is pending; `configUpdated` then establishes a new connection (a fresh
socket handle) yet the prior pending timer survives un-cancelled — refuting
the claim that establishing a new connection first cancels the pending
timer. -/
theorem c8_reconfigure_keeps_pending_timer_counterexample :
    (onError (init ⟨"10.0.0.1", "9000"⟩ none).1 "refused").1.liveTimers = [⟨0, 5000⟩]
    ∧ (configUpdated (onError (init ⟨"10.0.0.1", "9000"⟩ none).1 "refused").1
          ⟨"10.0.0.2", "9000"⟩ none).1.liveTimers = [⟨0, 5000⟩]
    ∧ (configUpdated (onError (init ⟨"10.0.0.1", "9000"⟩ none).1 "refused").1
          ⟨"10.0.0.2", "9000"⟩ none).1.ws = some 1 := by decide

/-- C8 (amended): in every reachable state at most one reconnect timer is
pending and any pending timer carries the fixed 5000 ms delay (every
schedule request cancels the previously stored timer first); however,
establishing a new connection via `configUpdated` does not cancel a pending
reconnect timer — it leaves the pending set exactly as it was. -/
theorem c8_single_pending_timer (st : MState) (hr : Reaches st) :
    (st.liveTimers.length ≤ 1 ∧ ∀ t ∈ st.liveTimers, t.delayMs = 5000)
    ∧ (∀ st2 : MState, ∀ cfg : Config,
        (configUpdated st2 cfg none).1.liveTimers = st2.liveTimers) := by
  constructor
  · have h := reaches_timerInv st hr
    exact ⟨h.1, fun t ht => (h.2 t ht).1⟩
  · intro st2 cfg
    by_cases hh : jsTrim cfg.host = "" <;>
      simp [configUpdated, connectWebSocket, hh]

/-- Witness for C8 at a reachable state that holds one pending timer. -/
theorem c8_single_pending_timer_witness :
    ((onError (init ⟨"10.0.0.1", "9000"⟩ none).1 "refused").1.liveTimers.length ≤ 1
      ∧ (⟨0, 5000⟩ : Timer).delayMs = 5000)
    ∧ (configUpdated (onError (init ⟨"10.0.0.1", "9000"⟩ none).1 "refused").1
          ⟨"10.0.0.2", "9000"⟩ none).1.liveTimers
        = (onError (init ⟨"10.0.0.1", "9000"⟩ none).1 "refused").1.liveTimers :=
  ⟨⟨(c8_single_pending_timer _
        (Reaches.wsError _ "refused" (Reaches.start ⟨"10.0.0.1", "9000"⟩ none))).1.1,
    (c8_single_pending_timer _
        (Reaches.wsError _ "refused" (Reaches.start ⟨"10.0.0.1", "9000"⟩ none))).1.2
      ⟨0, 5000⟩ (by decide)⟩,
   (c8_single_pending_timer _
        (Reaches.wsError _ "refused" (Reaches.start ⟨"10.0.0.1", "9000"⟩ none))).2 _ _⟩

end LiveGrade
